import Mathlib

/-! Shallow embedding of the AI-VOICE-AGENT backend (src/main.py, src/templates/main.py).

Each HTTP handler is modelled as a pure function from an environment that
records the responses of the external providers (AssemblyAI, Murf, Gemini)
observed during the request, to the JSON response the handler returns,
together with the observable side effects the claims talk about
(temporary-file removal, whether the shared audio artifact was written,
whether a provider was called, the per-session history).  Python strings
are modelled by Lean strings, with the Python primitive operations
(slicing, strip, capitalize, truthiness of optional fields) defined over
the underlying character list. -/

namespace VoiceAgent

/-- Python slicing s[:n]: the first n characters of s. -/
def pySlice (s : String) (n : Nat) : String := ⟨s.data.take n⟩

/-- Python str.strip(): drop leading and trailing whitespace. -/
def pyStrip (s : String) : String :=
  ⟨((s.data.dropWhile Char.isWhitespace).reverse.dropWhile Char.isWhitespace).reverse⟩

/-- Python str.capitalize(): first character upper-cased, the rest lower-cased. -/
def pyCapitalize (s : String) : String :=
  match s.data with
  | [] => s
  | c :: cs => ⟨c.toUpper :: cs.map Char.toLower⟩

/-- Python `a or b` on an optional string field of a JSON dict:
`d.get(k)` is None when the key is missing, and both None and the empty
string are falsy. -/
def pyOr (a : Option String) (b : String) : String :=
  match a with
  | some s => if s = "" then b else s
  | none => b

/-- An HTTP response from an external provider: status code and body text. -/
structure HttpResp where
  status_code : Nat
  body : String
deriving DecidableEq

/-- The JSON body of one AssemblyAI transcript-status poll response, together
with its HTTP status code: the fields read by the code are
status, text (j.get with default "") and error. -/
structure PollResponse where
  status_code : Nat
  body : String
  status : String
  text : String
  error : String
deriving DecidableEq

/-- A JSON response returned by a handler: HTTP status code and the body
fields in order. -/
structure Response where
  status_code : Nat
  fields : List (String × String)
deriving DecidableEq

/-- src/main.py line 40: fallback audio served from the static folder. -/
def FALLBACK_AUDIO_URL : String := "/static/fallback.mp3"

/-- A JSON request body, restricted to the two fields the handlers read. -/
structure JsonBody where
  text : Option String
  prompt : Option String
deriving DecidableEq

/-- One conversation turn stored in chat_store (src/main.py line 132). -/
structure Turn where
  role : String
  content : String
deriving DecidableEq

/-! Transcription client (src/main.py lines 64-90).  The provider responses
observed by one request are recorded in SttEnv; `polls i` is the response to
the i-th status poll. -/

structure SttEnv where
  uploadResp : HttpResp
  uploadUrl : Option String
  transcriptResp : HttpResp
  transcriptId : Option String
  polls : Nat → PollResponse

/-- src/main.py lines 64-69: raise unless the upload response is 200/201,
then return json().get("upload_url") (possibly absent). -/
def upload_to_assemblyai (env : SttEnv) : Except String (Option String) :=
  if env.uploadResp.status_code = 200 ∨ env.uploadResp.status_code = 201 then
    .ok env.uploadUrl
  else
    .error ("AssemblyAI upload failed: " ++ toString env.uploadResp.status_code ++ " "
      ++ env.uploadResp.body)

/-- src/main.py lines 71-75: raise unless the job-start response is 200/201,
then return json().get("id").  The upload_url argument is forwarded to the
provider and does not influence the recorded response. -/
def start_transcription (env : SttEnv) (_upload_url : Option String) :
    Except String (Option String) :=
  if env.transcriptResp.status_code = 200 ∨ env.transcriptResp.status_code = 201 then
    .ok env.transcriptId
  else
    .error ("AssemblyAI start transcription failed: " ++ toString env.transcriptResp.status_code
      ++ " " ++ env.transcriptResp.body)

/-- The body of the for-loop of poll_transcription (src/main.py lines 79-89),
polling from index i with the given remaining attempts.  Returns the outcome
together with the number of polls performed. -/
def pollLoop (polls : Nat → PollResponse) : Nat → Nat → Except String String × Nat
  | _, 0 => (.error "Transcription timed out", 0)
  | i, n + 1 =>
    let r := polls i
    if r.status_code ≠ 200 then
      (.error ("AssemblyAI poll failed: " ++ toString r.status_code ++ " " ++ r.body), 1)
    else if r.status = "completed" then
      (.ok r.text, 1)
    else if r.status = "error" then
      (.error ("AssemblyAI transcription error: " ++ r.error), 1)
    else
      let rest := pollLoop polls (i + 1) n
      (rest.1, rest.2 + 1)

/-- src/main.py lines 77-90: poll up to max_tries times; on exhaustion raise
"Transcription timed out".  The second component counts the polls performed. -/
def poll_transcription (polls : Nat → PollResponse) (max_tries : Nat := 60) :
    Except String String × Nat :=
  pollLoop polls 0 max_tries

/-- The upload → start_transcription → poll_transcription sequence shared by
/echobot/voice, /llm/query (audio path) and /gemini/voice
(src/main.py lines 251-253, 308-310, 413-415), with max_tries = 60. -/
def sttChain (env : SttEnv) : Except String String :=
  match upload_to_assemblyai env with
  | .error e => .error e
  | .ok upload_url =>
    match start_transcription env upload_url with
    | .error e => .error e
    | .ok _transcript_id => (poll_transcription env.polls 60).1

/-! Speech synthesis client (src/main.py lines 98-126).  The generation and
audio-file responses are functions of the text submitted in the payload. -/

structure MurfEnv where
  voicesResp : HttpResp
  voicesJson : Option (List (Option String))
  genResp : String → HttpResp
  genAudioFile : String → Option String
  downloadResp : HttpResp

/-- src/main.py lines 98-105: fetch the voice catalog; raise on non-200 or
when the body is not a nonempty list; return voices[0].get("voiceId"). -/
def get_murf_voice_id (env : MurfEnv) : Except String (Option String) :=
  if env.voicesResp.status_code ≠ 200 then
    .error ("Failed to fetch Murf voices: " ++ toString env.voicesResp.status_code ++ " "
      ++ env.voicesResp.body)
  else
    match env.voicesJson with
    | none => .error "Unexpected voices format from Murf"
    | some [] => .error "Unexpected voices format from Murf"
    | some (v :: _) => .ok v

/-- src/main.py lines 109-111: the text placed in the Murf payload — the
input truncated to its first 3000 characters when longer than 3000. -/
def murfSubmittedText (text : String) : String :=
  if text.length > 3000 then pySlice text 3000 else text

/-- src/main.py lines 113-126: the part of generate_murf_audio_and_save after
the truncation — select a voice, request generation of the given (already
truncated) text, follow the returned audioFile URL, save the bytes to
out_path and return it. -/
def murfGenerateAndDownload (env : MurfEnv) (text : String)
    (out_path : String) : Except String String :=
  match get_murf_voice_id env with
  | .error e => .error e
  | .ok _voice_id =>
    if (env.genResp text).status_code = 200 ∨ (env.genResp text).status_code = 201 then
      match env.genAudioFile text with
      | none => .error "Murf returned no audioFile URL"
      | some _audio_url =>
        if env.downloadResp.status_code = 200 then
          .ok out_path
        else
          .error ("Failed to download Murf audio: " ++ toString env.downloadResp.status_code)
    else
      .error ("Murf TTS failed: " ++ toString (env.genResp text).status_code ++ " "
        ++ (env.genResp text).body)

/-- src/main.py lines 107-126: truncate the text to the Murf limit (lines
109-111), then generate and save. -/
def generate_murf_audio_and_save (env : MurfEnv) (text : String)
    (out_path : String := "murf_output.mp3") : Except String String :=
  murfGenerateAndDownload env (murfSubmittedText text) out_path

/-! Handlers of src/main.py.  Each model returns the JSON response paired
with the observable effects the claims mention. -/

/-- src/main.py lines 145-157 (POST /gemini).  The llm argument records the
outcome of gemini_generate as a function of the prompt passed to it.  The
Bool is true iff gemini_generate was called. -/
def gemini_chat (llm : String → Except String String) (payload : JsonBody) :
    Response × Bool :=
  let prompt := pyOr payload.prompt (pyOr payload.text "")
  if prompt = "" then
    (⟨400, [("error", "Prompt or text field is required")]⟩, false)
  else
    match llm prompt with
    | .ok text => (⟨200, [("response", text)]⟩, true)
    | .error e =>
      (⟨500, [("error", "Failed to generate response"), ("details", e),
        ("audio_file", FALLBACK_AUDIO_URL)]⟩, true)

/-- The inline poll loop of /tts/echo/ (src/main.py lines 191-200, identical
to src/templates/main.py lines 80-90): 20 fixed iterations, no status-code
check; some (.ok t) on status completed, some (.error e) on status error
(carrying poll_json.get("error")), none when the loop exhausts. -/
def echoPollLoop (polls : Nat → PollResponse) : Nat → Nat → Option (Except String String)
  | _, 0 => none
  | i, n + 1 =>
    let r := polls i
    if r.status = "completed" then some (.ok r.text)
    else if r.status = "error" then some (.error r.error)
    else echoPollLoop polls (i + 1) n

/-- Environment for /tts/echo/ in src/main.py, whose pipeline is inlined in
the handler rather than using the helper functions. -/
structure EchoBotEnv where
  uploadResp : HttpResp
  uploadUrl : Option String
  transcriptResp : HttpResp
  transcriptId : Option String
  polls : Nat → PollResponse
  murf : MurfEnv

/-- The Murf section of /tts/echo/ (src/main.py lines 206-229): no voice-list
emptiness guard (an empty or non-list body raises inside the inner try and is
reported as "Murf TTS error"), no text truncation, no download status check. -/
def echoMurfPhase (m : MurfEnv) (transcript_text : String) : Response :=
  if m.voicesResp.status_code ≠ 200 then
    ⟨500, [("error", "Failed to fetch voices"), ("details", m.voicesResp.body),
      ("audio_file", FALLBACK_AUDIO_URL)]⟩
  else
    match m.voicesJson with
    | none =>
      ⟨500, [("error", "Murf TTS error"), ("details", "list index out of range"),
        ("audio_file", FALLBACK_AUDIO_URL)]⟩
    | some [] =>
      ⟨500, [("error", "Murf TTS error"), ("details", "list index out of range"),
        ("audio_file", FALLBACK_AUDIO_URL)]⟩
    | some (_voice_id :: _) =>
      if (m.genResp transcript_text).status_code = 200
          ∨ (m.genResp transcript_text).status_code = 201 then
        match m.genAudioFile transcript_text with
        | none =>
          ⟨500, [("error", "No audio file returned"), ("audio_file", FALLBACK_AUDIO_URL)]⟩
        | some _audio_url =>
          ⟨200, [("audio_file", "/play-audio"), ("transcript", transcript_text)]⟩
      else
        ⟨500, [("error", "Murf API failed"), ("details", (m.genResp transcript_text).body),
          ("audio_file", FALLBACK_AUDIO_URL)]⟩

/-- src/main.py lines 160-232 (POST /tts/echo/).  Note lines 203-204: after
the poll loop, a Python-falsy transcript (None from loop exhaustion, but also
the empty string from a completed transcription) is reported as a timeout. -/
def echo_bot (env : EchoBotEnv) : Response :=
  if ¬ (env.uploadResp.status_code = 200 ∨ env.uploadResp.status_code = 201) then
    ⟨500, [("error", "Upload failed"), ("details", env.uploadResp.body),
      ("audio_file", FALLBACK_AUDIO_URL)]⟩
  else
    match env.uploadUrl with
    | none => ⟨500, [("error", "Upload URL missing"), ("audio_file", FALLBACK_AUDIO_URL)]⟩
    | some _ =>
      if ¬ (env.transcriptResp.status_code = 200 ∨ env.transcriptResp.status_code = 201) then
        ⟨500, [("error", "Transcription start failed"), ("details", env.transcriptResp.body),
          ("audio_file", FALLBACK_AUDIO_URL)]⟩
      else
        match env.transcriptId with
        | none => ⟨500, [("error", "Transcript ID missing"), ("audio_file", FALLBACK_AUDIO_URL)]⟩
        | some _ =>
          match echoPollLoop env.polls 0 20 with
          | some (.error e) => ⟨500, [("error", e), ("audio_file", FALLBACK_AUDIO_URL)]⟩
          | some (.ok t) =>
            if t = "" then
              ⟨504, [("error", "Transcription timed out."), ("audio_file", FALLBACK_AUDIO_URL)]⟩
            else
              echoMurfPhase env.murf t
          | none =>
            ⟨504, [("error", "Transcription timed out."), ("audio_file", FALLBACK_AUDIO_URL)]⟩

/-- Environment for the handlers built from the helper functions. -/
structure PipelineEnv where
  stt : SttEnv
  murf : MurfEnv

/-- src/main.py lines 238-284 (POST /echobot/voice/\x7bsession_id\x7d):
STT then Murf echo of the transcript.  The Bool is true iff the temporary
uploaded-audio file was removed (os.remove is attempted on every modelled
path). -/
def echobot_voice (env : PipelineEnv) : Response × Bool :=
  match sttChain env.stt with
  | .error e =>
    (⟨500, [("error", "STT failed"), ("details", e), ("audio_file", FALLBACK_AUDIO_URL)]⟩, true)
  | .ok transcript_text =>
    match generate_murf_audio_and_save env.murf transcript_text with
    | .error e =>
      (⟨500, [("error", "TTS failed"), ("details", e), ("audio_file", FALLBACK_AUDIO_URL)]⟩, true)
    | .ok _ =>
      (⟨200, [("transcript", transcript_text), ("audio_file", "/play-audio")]⟩, true)

/-- Environment for POST /llm/query: whether a file was attached, whether the
content type contains "multipart/form-data", the provider traces, the parsed
JSON body (none when request.json() raises, with jsonError = str(e)). -/
structure LlmQueryEnv where
  hasFile : Bool
  multipartContentType : Bool
  stt : SttEnv
  llm : String → Except String String
  murf : MurfEnv
  jsonBody : Option JsonBody
  jsonError : String

/-- src/main.py lines 289-364 (POST /llm/query).  The Bool is true iff the
shared audio artifact murf_output.mp3 was written. -/
def llm_query (env : LlmQueryEnv) : Response × Bool :=
  if env.hasFile || env.multipartContentType then
    if env.hasFile = false then
      (⟨400, [("error", "No audio file provided"), ("audio_file", FALLBACK_AUDIO_URL)]⟩, false)
    else
      match sttChain env.stt with
      | .error e =>
        (⟨500, [("error", "STT failed"), ("details", e),
          ("audio_file", FALLBACK_AUDIO_URL)]⟩, false)
      | .ok transcript_text =>
        match env.llm transcript_text with
        | .error e =>
          (⟨500, [("error", "LLM failed"), ("details", e),
            ("audio_file", FALLBACK_AUDIO_URL)]⟩, false)
        | .ok raw =>
          let llm_reply := pyStrip raw
          match generate_murf_audio_and_save env.murf llm_reply with
          | .error e =>
            (⟨500, [("error", "TTS failed"), ("details", e),
              ("audio_file", FALLBACK_AUDIO_URL)]⟩, false)
          | .ok _ =>
            (⟨200, [("transcript", transcript_text), ("llm_response", llm_reply),
              ("audio_file", "/play-audio")]⟩, true)
  else
    match env.jsonBody with
    | none => (⟨500, [("error", env.jsonError), ("audio_file", FALLBACK_AUDIO_URL)]⟩, false)
    | some data =>
      let prompt := pyOr data.text (pyOr data.prompt "")
      if prompt = "" then
        (⟨400, [("error", "Text or prompt field is required"),
          ("audio_file", FALLBACK_AUDIO_URL)]⟩, false)
      else
        match env.llm prompt with
        | .ok text => (⟨200, [("response", text)]⟩, false)
        | .error e => (⟨500, [("error", e), ("audio_file", FALLBACK_AUDIO_URL)]⟩, false)

/-- src/main.py lines 369-389 (POST /voice/text).  The Bool is true iff the
Murf client was invoked. -/
def voice_text (murf : MurfEnv) (payload : JsonBody) : Response × Bool :=
  let text := pyOr payload.text (pyOr payload.prompt "")
  if text = "" then
    (⟨400, [("error", "Text is required"), ("audio_file", FALLBACK_AUDIO_URL)]⟩, false)
  else
    match generate_murf_audio_and_save murf text with
    | .ok _ => (⟨200, [("reply", text), ("audio_file", "/play-audio")]⟩, true)
    | .error e =>
      (⟨500, [("error", "TTS failed"), ("details", e),
        ("audio_file", FALLBACK_AUDIO_URL)]⟩, true)

/-! Session voice chat (src/main.py lines 395-470) and its history rendering. -/

/-- One line of the history prompt (src/main.py line 430). -/
def renderTurn (m : Turn) : String := pyCapitalize m.role ++ ": " ++ m.content

/-- src/main.py line 430: the history joined with newlines, one entry per turn. -/
def historyText (h : List Turn) : String := String.intercalate "\n" (h.map renderTurn)

/-- src/main.py line 431: the full prompt sent to Gemini. -/
def fullPrompt (h : List Turn) : String :=
  "You are a helpful assistant. Continue the conversation based on the history below.\n\n"
    ++ historyText h ++ "\nAssistant:"

/-- src/main.py line 439: the canned assistant turn appended on LLM failure. -/
def FAILURE_TURN : String := "I\x27m having trouble generating a response right now."

structure GeminiVoiceEnv where
  stt : SttEnv
  llm : String → Except String String
  murf : MurfEnv

/-- src/main.py lines 395-470 (POST /gemini/voice/\x7bsession_id\x7d).
Takes the current history of the session (chat_store.get(session_id, []))
and returns the updated history together with the response. -/
def gemini_voice (env : GeminiVoiceEnv) (history : List Turn) : List Turn × Response :=
  match sttChain env.stt with
  | .error e =>
    (history,
     ⟨500, [("error", "STT failed"), ("details", e), ("audio_file", FALLBACK_AUDIO_URL)]⟩)
  | .ok transcript_text =>
    let history := history ++ [⟨"user", transcript_text⟩]
    match env.llm (fullPrompt history) with
    | .error e =>
      (history ++ [⟨"assistant", FAILURE_TURN⟩],
       ⟨500, [("error", "LLM failed"), ("details", e), ("audio_file", FALLBACK_AUDIO_URL)]⟩)
    | .ok raw =>
      let llm_reply := pyStrip raw
      let history := history ++ [⟨"assistant", llm_reply⟩]
      match generate_murf_audio_and_save env.murf llm_reply with
      | .error e =>
        (history,
         ⟨500, [("error", "TTS failed"), ("details", e), ("audio_file", FALLBACK_AUDIO_URL)]⟩)
      | .ok _ =>
        (history,
         ⟨200, [("transcript", transcript_text), ("reply", llm_reply),
           ("audio_file", "/play-audio")]⟩)

/-- A sequence of non-interleaved requests to /gemini/voice for one session,
threading the stored history. -/
def runSession (envs : List GeminiVoiceEnv) (history : List Turn) : List Turn :=
  match envs with
  | [] => history
  | e :: rest => runSession rest (gemini_voice e history).1

/-! The older variant of the echo pipeline in src/templates/main.py. -/

namespace Templates

/-- Environment for the /tts/echo/ handler of src/templates/main.py: provider
responses observed during one request.  The voice is the fixed "en-US-male",
so no voice-catalog response appears. -/
structure EchoEnv where
  uploadResp : HttpResp
  uploadUrl : Option String
  transcriptResp : HttpResp
  transcriptId : Option String
  polls : Nat → PollResponse
  murfGenResp : String → HttpResp
  murfAudioFile : String → Option String

/-- src/templates/main.py lines 37-128 (POST /tts/echo/).  Status checks are
strict equality with 200, and the error bodies carry no audio_file key.
The Bool is true iff the temporary file was removed. -/
def echo_bot (env : EchoEnv) : Response × Bool :=
  if env.uploadResp.status_code ≠ 200 then
    (⟨500, [("error", "Upload failed"), ("details", env.uploadResp.body)]⟩, true)
  else
    match env.uploadUrl with
    | none => (⟨500, [("error", "Upload URL missing in response")]⟩, true)
    | some _ =>
      if env.transcriptResp.status_code ≠ 200 then
        (⟨500, [("error", "Transcription start failed"),
          ("details", env.transcriptResp.body)]⟩, true)
      else
        match env.transcriptId with
        | none => (⟨500, [("error", "Transcript ID missing in response")]⟩, true)
        | some _ =>
          match echoPollLoop env.polls 0 20 with
          | some (.error e) => (⟨500, [("error", e)]⟩, true)
          | some (.ok t) =>
            if t = "" then
              (⟨504, [("error", "Transcription timed out.")]⟩, true)
            else
              if (env.murfGenResp t).status_code ≠ 200 then
                (⟨500, [("error", "Murf API failed"),
                  ("details", (env.murfGenResp t).body)]⟩, true)
              else
                match env.murfAudioFile t with
                | none => (⟨500, [("error", "No audio file returned from Murf")]⟩, true)
                | some _ =>
                  (⟨200, [("audio_file", "/play-audio"), ("transcript", t)]⟩, true)
          | none => (⟨504, [("error", "Transcription timed out.")]⟩, true)

end Templates

/-! Derived notions used by the claims. -/

/-- A poll response that keeps the polling loop going: HTTP 200 and a
non-terminal job status. -/
def pollPending (r : PollResponse) : Prop :=
  r.status_code = 200 ∧ r.status ≠ "completed" ∧ r.status ≠ "error"

/-- The transcript produced by a successful STT chain (default "" when the
chain failed). -/
def sttTextOf (e : GeminiVoiceEnv) : String := (sttChain e.stt).toOption.getD ""

/-- The raw Gemini reply of an environment whose llm trace is a constant
success. -/
def rawReplyOf (e : GeminiVoiceEnv) : String := ((e.llm "").toOption).getD ""

/-- The reply as stored and spoken: the raw reply stripped (line 435). -/
def replyOf (e : GeminiVoiceEnv) : String := pyStrip (rawReplyOf e)

/-- A fully successful /gemini/voice request: the STT chain succeeds, the
LLM call succeeds (with an outcome independent of the prompt), and the
synthesis of the stripped reply succeeds. -/
def Successful (e : GeminiVoiceEnv) : Prop :=
  sttChain e.stt = .ok (sttTextOf e) ∧
  e.llm = (fun _ => .ok (rawReplyOf e)) ∧
  (generate_murf_audio_and_save e.murf (replyOf e)).isOk = true

/-- A JSON body whose text and prompt fields are each missing or the empty
string (both Python-falsy). -/
def emptyish (b : JsonBody) : Prop :=
  (b.text = none ∨ b.text = some "") ∧ (b.prompt = none ∨ b.prompt = some "")

/-! Concrete environments used to instantiate the theorems. -/

/-- A poll response with a non-terminal status. -/
def pendingPoll : PollResponse := ⟨200, "", "processing", "", ""⟩

/-- A poll response reporting completion with the given transcript. -/
def completedPoll (t : String) : PollResponse := ⟨200, "", "completed", t, ""⟩

/-- A poll response whose HTTP status is not 200. -/
def badPoll : PollResponse := ⟨502, "Bad Gateway", "", "", ""⟩

/-- A Murf environment in which every call succeeds. -/
def okMurf : MurfEnv :=
  ⟨⟨200, ""⟩, some [some "en-US-1"], fun _ => ⟨200, ""⟩,
   fun _ => some "https://murf.example/audio.mp3", ⟨200, ""⟩⟩

/-- An STT environment whose transcription completes with transcript t on the
first poll. -/
def okStt (t : String) : SttEnv :=
  ⟨⟨200, ""⟩, some "https://upload.example/u", ⟨200, ""⟩, some "tid",
   fun _ => completedPoll t⟩

/-- An STT environment whose upload request fails with HTTP 500. -/
def failUploadStt : SttEnv :=
  ⟨⟨500, "boom"⟩, none, ⟨200, ""⟩, some "tid", fun _ => pendingPoll⟩

/-- A pipeline environment whose upload step fails. -/
def pipeFailEnv : PipelineEnv := ⟨failUploadStt, okMurf⟩

/-- A templates-app echo environment whose upload step fails. -/
def templatesFailEnv : Templates.EchoEnv :=
  ⟨⟨500, "boom"⟩, none, ⟨200, ""⟩, some "tid", fun _ => pendingPoll,
   fun _ => ⟨200, ""⟩, fun _ => some "https://murf.example/audio.mp3"⟩

/-- A /tts/echo/ environment whose transcription completes with the empty
transcript and whose Murf calls would all succeed. -/
def emptyTranscriptEnv : EchoBotEnv :=
  ⟨⟨200, ""⟩, some "https://upload.example/u", ⟨200, ""⟩, some "tid",
   fun _ => completedPoll "", okMurf⟩

/-- A /tts/echo/ environment whose transcription completes with "hello". -/
def helloEchoEnv : EchoBotEnv :=
  ⟨⟨200, ""⟩, some "https://upload.example/u", ⟨200, ""⟩, some "tid",
   fun _ => completedPoll "hello", okMurf⟩

/-- A fully successful /gemini/voice environment. -/
def okGeminiEnv : GeminiVoiceEnv := ⟨okStt "hi", fun _ => .ok "there", okMurf⟩

/-- A /gemini/voice environment whose LLM call fails. -/
def failLlmGeminiEnv : GeminiVoiceEnv := ⟨okStt "hi", fun _ => .error "boom", okMurf⟩

/-- A /llm/query environment: multipart content type but no attached file. -/
def multipartNoFileEnv : LlmQueryEnv :=
  ⟨false, true, okStt "x", fun _ => .ok "reply", okMurf, some ⟨some "hello", none⟩, ""⟩

/-- A /llm/query environment carrying a JSON body with text "hello". -/
def jsonHelloEnv : LlmQueryEnv :=
  ⟨false, false, okStt "x", fun _ => .ok "reply", okMurf, some ⟨some "hello", none⟩, ""⟩

/-- A fully successful audio-path /llm/query environment. -/
def audioLlmEnv : LlmQueryEnv :=
  ⟨true, true, okStt "hi", fun _ => .ok "reply", okMurf, none, ""⟩

/-- A /llm/query environment whose JSON body carries text as the empty string. -/
def jsonEmptyEnv : LlmQueryEnv :=
  ⟨false, false, okStt "x", fun _ => .ok "reply", okMurf, some ⟨some "", none⟩, ""⟩

/-- A JSON body whose text field is the empty string and prompt is missing. -/
def emptyTextBody : JsonBody := ⟨some "", none⟩

/-- A string of 3001 characters, longer than the Murf limit. -/
def bigText : String := ⟨List.replicate 3001 'a'⟩

/-! Helper lemmas. -/

lemma exceptOk_elim {ε α : Type} {r : Except ε α} (h : r.isOk = true) : ∃ a, r = .ok a := by
  cases r with
  | ok a => exact ⟨a, rfl⟩
  | error e => simp [Except.isOk, Except.toBool] at h

lemma string_length_data (s : String) : s.length = s.data.length := by
  cases s; rfl

lemma pollLoop_pending (polls : Nat → PollResponse) (i n : Nat)
    (h : pollPending (polls i)) :
    pollLoop polls i (n + 1) =
      ((pollLoop polls (i + 1) n).1, (pollLoop polls (i + 1) n).2 + 1) := by
  obtain ⟨h1, h2, h3⟩ := h
  simp [pollLoop, h1, h2, h3]

lemma pollLoop_skip (polls : Nat → PollResponse) (k : Nat) :
    ∀ s n, (∀ i, i < k → pollPending (polls (s + i))) →
      pollLoop polls s (k + n) =
        ((pollLoop polls (s + k) n).1, (pollLoop polls (s + k) n).2 + k) := by
  induction k with
  | zero => intro s n _; simp
  | succ k ih =>
    intro s n h
    have hs : pollPending (polls s) := by simpa using h 0 (Nat.succ_pos k)
    have harr : k + 1 + n = (k + n) + 1 := by omega
    rw [harr, pollLoop_pending polls s (k + n) hs]
    have hrest : ∀ i, i < k → pollPending (polls (s + 1 + i)) := by
      intro i hi
      have := h (i + 1) (by omega)
      rwa [show s + (i + 1) = s + 1 + i by omega] at this
    rw [ih (s + 1) n hrest]
    rw [show s + 1 + k = s + (k + 1) by omega, Nat.add_assoc]

/-- C3: for a transcription job that is never terminal while every poll
returns HTTP 200, poll_transcription performs exactly max_tries polls and
then fails with the timeout error; if instead the first terminal-status poll
(index k) reports completed it returns that poll's text after k+1 polls, and
if it reports error it fails carrying the provider-supplied error detail. -/
theorem poll_transcription_terminal_spec (polls : Nat → PollResponse) (m : Nat) :
    ((∀ i, i < m → pollPending (polls i)) →
      poll_transcription polls m = (.error "Transcription timed out", m))
    ∧ (∀ k, k < m → (∀ i, i < k → pollPending (polls i)) →
        (polls k).status_code = 200 → (polls k).status = "completed" →
        poll_transcription polls m = (.ok (polls k).text, k + 1))
    ∧ (∀ k, k < m → (∀ i, i < k → pollPending (polls i)) →
        (polls k).status_code = 200 → (polls k).status = "error" →
        poll_transcription polls m =
          (.error ("AssemblyAI transcription error: " ++ (polls k).error), k + 1)) := by
  refine ⟨?_, ?_, ?_⟩
  · intro h
    have hskip := pollLoop_skip polls m 0 0 (fun i hi => by simpa using h i hi)
    simp only [Nat.add_zero, Nat.zero_add] at hskip
    simpa [poll_transcription, pollLoop] using hskip
  · intro k hk h hcode hstat
    obtain ⟨d, hd⟩ := Nat.exists_eq_add_of_lt hk
    have hskip := pollLoop_skip polls k 0 (d + 1) (fun i hi => by simpa using h i hi)
    simp only [Nat.zero_add] at hskip
    have hstep : pollLoop polls k (d + 1) = (.ok (polls k).text, 1) := by
      simp [pollLoop, hcode, hstat]
    rw [poll_transcription, show m = k + (d + 1) by omega, hskip, hstep, Nat.add_comm]
  · intro k hk h hcode hstat
    obtain ⟨d, hd⟩ := Nat.exists_eq_add_of_lt hk
    have hskip := pollLoop_skip polls k 0 (d + 1) (fun i hi => by simpa using h i hi)
    simp only [Nat.zero_add] at hskip
    have hstat2 : (polls k).status ≠ "completed" := by simp [hstat]
    have hstep : pollLoop polls k (d + 1) =
        (.error ("AssemblyAI transcription error: " ++ (polls k).error), 1) := by
      simp [pollLoop, hcode, hstat, hstat2]
    rw [poll_transcription, show m = k + (d + 1) by omega, hskip, hstep, Nat.add_comm]

/-- C3 witness: with every poll pending, a budget of 3 polls times out after
exactly 3 polls. -/
theorem poll_transcription_terminal_spec_witness :
    poll_transcription (fun _ => pendingPoll) 3 = (.error "Transcription timed out", 3) :=
  (poll_transcription_terminal_spec (fun _ => pendingPoll) 3).1 (fun i _ => by
    constructor
    · rfl
    · constructor <;> decide)

/-- C10: if the polls before index k are pending with HTTP 200 and the poll
at index k returns a non-200 HTTP status, poll_transcription fails right
there with the poll-failure error after exactly k+1 polls: the HTTP error is
never retried and no remaining attempt is consumed. -/
theorem poll_transcription_http_failure (polls : Nat → PollResponse) (m k : Nat)
    (hk : k < m) (hpre : ∀ i, i < k → pollPending (polls i))
    (hbad : (polls k).status_code ≠ 200) :
    poll_transcription polls m =
      (.error ("AssemblyAI poll failed: " ++ toString (polls k).status_code ++ " "
        ++ (polls k).body), k + 1) := by
  obtain ⟨d, hd⟩ := Nat.exists_eq_add_of_lt hk
  have hskip := pollLoop_skip polls k 0 (d + 1) (fun i hi => by simpa using hpre i hi)
  simp only [Nat.zero_add] at hskip
  have hstep : pollLoop polls k (d + 1) =
      (.error ("AssemblyAI poll failed: " ++ toString (polls k).status_code ++ " "
        ++ (polls k).body), 1) := by
    simp [pollLoop, hbad]
  rw [poll_transcription, show m = k + (d + 1) by omega, hskip, hstep, Nat.add_comm]

/-- C10 witness: with a budget of 60 and the first poll answering HTTP 502,
polling fails immediately after 1 poll. -/
theorem poll_transcription_http_failure_witness :
    poll_transcription (fun _ => badPoll) 60 =
      (.error ("AssemblyAI poll failed: " ++ toString badPoll.status_code ++ " "
        ++ badPoll.body), 1) :=
  poll_transcription_http_failure (fun _ => badPoll) 60 0 (by omega)
    (fun i hi => absurd hi (by omega)) (by decide)

lemma pySlice_length_of_le (s : String) (n : Nat) (h : n ≤ s.length) :
    (pySlice s n).length = n := by
  cases s with
  | mk d =>
    rw [string_length_data] at h
    show (List.take n d).length = n
    rw [List.length_take]
    exact Nat.min_eq_left h

lemma murfSubmittedText_idem (t : String) :
    murfSubmittedText (murfSubmittedText t) = murfSubmittedText t := by
  unfold murfSubmittedText
  by_cases h : t.length > 3000
  · rw [if_pos h, if_neg]
    rw [pySlice_length_of_le t 3000 (by omega)]
    omega
  · rw [if_neg h, if_neg h]

/-- C4: the text submitted to the Murf speech-generation request is the first
3000 characters of the input when the input is longer than 3000 characters
(so its length is exactly 3000), and the input unchanged otherwise; the
remainder is dropped: the whole synthesis call depends only on the truncated
text, with no chunking. -/
theorem murf_truncation_spec (text : String) :
    (text.length > 3000 →
      murfSubmittedText text = pySlice text 3000
        ∧ (murfSubmittedText text).data = text.data.take 3000
        ∧ (murfSubmittedText text).length = 3000)
    ∧ (text.length ≤ 3000 → murfSubmittedText text = text)
    ∧ (∀ env : MurfEnv, ∀ out_path : String,
        generate_murf_audio_and_save env text out_path =
          generate_murf_audio_and_save env (murfSubmittedText text) out_path) := by
  refine ⟨?_, ?_, ?_⟩
  · intro h
    have h1 : murfSubmittedText text = pySlice text 3000 := by
      unfold murfSubmittedText; rw [if_pos h]
    refine ⟨h1, by rw [h1]; rfl, by rw [h1]; exact pySlice_length_of_le text 3000 (by omega)⟩
  · intro h
    unfold murfSubmittedText
    rw [if_neg (by omega)]
  · intro env out_path
    unfold generate_murf_audio_and_save
    rw [murfSubmittedText_idem]

/-- C4 witness: a 3001-character input is cut to its first 3000 characters,
while "hello" is submitted unchanged. -/
theorem murf_truncation_spec_witness :
    (murfSubmittedText bigText = pySlice bigText 3000
      ∧ (murfSubmittedText bigText).data = bigText.data.take 3000
      ∧ (murfSubmittedText bigText).length = 3000)
    ∧ murfSubmittedText "hello" = "hello" := by
  constructor
  · refine (murf_truncation_spec bigText).1 ?_
    rw [string_length_data, show bigText.data = List.replicate 3001 'a' from rfl,
      List.length_replicate]
    omega
  · exact (murf_truncation_spec "hello").2.1 (by decide)

lemma pyOr_falsy {a : Option String} (b : String) (h : a = none ∨ a = some "") :
    pyOr a b = b := by
  rcases h with h | h <;> simp [pyOr, h]

/-- C6: for a JSON body carrying a non-empty text of length at most 3000
whose synthesis succeeds, POST /voice/text submits exactly that text to
synthesis and returns a 200 body with reply equal to the input text
unmodified and audio_file "/play-audio". -/
theorem voice_text_echoes_exact_text (murf : MurfEnv) (payload : JsonBody) (t : String)
    (htext : payload.text = some t) (hne : t ≠ "") (hlen : t.length ≤ 3000)
    (hok : (generate_murf_audio_and_save murf t).isOk = true) :
    murfSubmittedText t = t ∧
    voice_text murf payload = (⟨200, [("reply", t), ("audio_file", "/play-audio")]⟩, true) := by
  have hm : murfSubmittedText t = t := by
    unfold murfSubmittedText; rw [if_neg (by omega)]
  refine ⟨hm, ?_⟩
  obtain ⟨p, hp⟩ := exceptOk_elim hok
  unfold voice_text
  rw [htext]
  simp [pyOr, hne, hp]

/-- C6 witness: text "hello" with an all-success Murf environment. -/
theorem voice_text_echoes_exact_text_witness :
    murfSubmittedText "hello" = "hello" ∧
    voice_text okMurf ⟨some "hello", none⟩ =
      (⟨200, [("reply", "hello"), ("audio_file", "/play-audio")]⟩, true) :=
  voice_text_echoes_exact_text okMurf ⟨some "hello", none⟩ "hello" rfl (by decide)
    (by decide) (by decide)

/-- C9: a request body whose text and prompt fields are each missing or the
empty string is treated exactly like a missing field by POST /gemini,
POST /voice/text and the JSON path of POST /llm/query: HTTP 400 is returned,
no external provider is called, and no audio artifact is written. -/
theorem empty_text_rejected (llm : String → Except String String) (murf : MurfEnv)
    (b : JsonBody) (env : LlmQueryEnv) (hb : emptyish b) :
    gemini_chat llm b = (⟨400, [("error", "Prompt or text field is required")]⟩, false)
    ∧ voice_text murf b =
        (⟨400, [("error", "Text is required"), ("audio_file", FALLBACK_AUDIO_URL)]⟩, false)
    ∧ (env.hasFile = false → env.multipartContentType = false → env.jsonBody = some b →
        llm_query env = (⟨400, [("error", "Text or prompt field is required"),
          ("audio_file", FALLBACK_AUDIO_URL)]⟩, false)) := by
  have htext : pyOr b.text (pyOr b.prompt "") = "" := by
    rw [pyOr_falsy _ hb.1, pyOr_falsy _ hb.2]
  have hprompt : pyOr b.prompt (pyOr b.text "") = "" := by
    rw [pyOr_falsy _ hb.2, pyOr_falsy _ hb.1]
  refine ⟨?_, ?_, ?_⟩
  · unfold gemini_chat
    rw [hprompt]
    simp
  · unfold voice_text
    rw [htext]
    simp
  · intro h1 h2 h3
    unfold llm_query
    rw [h1, h2, h3]
    simp [htext]

/-- C9 witness: a body with text "" and no prompt field. -/
theorem empty_text_rejected_witness :
    gemini_chat (fun _ => .ok "reply") emptyTextBody =
      (⟨400, [("error", "Prompt or text field is required")]⟩, false)
    ∧ voice_text okMurf emptyTextBody =
        (⟨400, [("error", "Text is required"), ("audio_file", FALLBACK_AUDIO_URL)]⟩, false)
    ∧ llm_query jsonEmptyEnv = (⟨400, [("error", "Text or prompt field is required"),
        ("audio_file", FALLBACK_AUDIO_URL)]⟩, false) := by
  have h := empty_text_rejected (fun _ => .ok "reply") okMurf emptyTextBody jsonEmptyEnv
    (by constructor <;> simp [emptyTextBody])
  exact ⟨h.1, h.2.1, h.2.2 rfl rfl rfl⟩

/-- C8: when transcription succeeds and the LLM call fails, /gemini/voice
still appends the canned failure assistant turn after the user turn — the
history grows by exactly two turns — and the response is a 500 error carrying
the Fallback Audio Reference. -/
theorem gemini_voice_llm_failure_appends (env : GeminiVoiceEnv) (h : List Turn)
    (t e : String) (hstt : sttChain env.stt = .ok t)
    (hllm : env.llm (fullPrompt (h ++ [⟨"user", t⟩])) = .error e) :
    gemini_voice env h =
      (h ++ [⟨"user", t⟩, ⟨"assistant", FAILURE_TURN⟩],
       ⟨500, [("error", "LLM failed"), ("details", e), ("audio_file", FALLBACK_AUDIO_URL)]⟩)
    ∧ (gemini_voice env h).1.length = h.length + 2 := by
  have hmain : gemini_voice env h =
      (h ++ [⟨"user", t⟩, ⟨"assistant", FAILURE_TURN⟩],
       ⟨500, [("error", "LLM failed"), ("details", e),
         ("audio_file", FALLBACK_AUDIO_URL)]⟩) := by
    unfold gemini_voice
    rw [hstt]
    dsimp only
    rw [hllm]
    simp
  exact ⟨hmain, by rw [hmain]; simp⟩

/-- C8 witness: transcript "hi" and a failing LLM, starting from the empty
history. -/
theorem gemini_voice_llm_failure_appends_witness :
    gemini_voice failLlmGeminiEnv [] =
      ([⟨"user", "hi"⟩, ⟨"assistant", FAILURE_TURN⟩],
       ⟨500, [("error", "LLM failed"), ("details", "boom"),
         ("audio_file", FALLBACK_AUDIO_URL)]⟩)
    ∧ (gemini_voice failLlmGeminiEnv []).1.length = ([] : List Turn).length + 2 := by
  have h := gemini_voice_llm_failure_appends failLlmGeminiEnv [] "hi" "boom" rfl rfl
  simpa using h

lemma gemini_voice_success (e : GeminiVoiceEnv) (h : List Turn) (hs : Successful e) :
    gemini_voice e h =
      (h ++ [⟨"user", sttTextOf e⟩, ⟨"assistant", replyOf e⟩],
       ⟨200, [("transcript", sttTextOf e), ("reply", replyOf e),
         ("audio_file", "/play-audio")]⟩) := by
  obtain ⟨h1, h2, h3⟩ := hs
  obtain ⟨p, hp⟩ := exceptOk_elim h3
  unfold gemini_voice
  rw [h1]
  dsimp only
  rw [h2]
  dsimp only
  rw [show pyStrip (rawReplyOf e) = replyOf e from rfl, hp]
  simp

lemma runSession_success (envs : List GeminiVoiceEnv) :
    ∀ h : List Turn, (∀ e ∈ envs, Successful e) →
      runSession envs h =
        h ++ envs.flatMap (fun e => [⟨"user", sttTextOf e⟩, ⟨"assistant", replyOf e⟩]) := by
  induction envs with
  | nil => intro h _; simp [runSession]
  | cons e rest ih =>
    intro h hall
    have hse : Successful e := hall e (by simp)
    show runSession rest (gemini_voice e h).1 = _
    rw [gemini_voice_success e h hse]
    dsimp only
    rw [ih _ (fun x hx => hall x (by simp [hx]))]
    simp

lemma flatMap_pairs_length {α β : Type} (l : List α) (f g : α → β) :
    (l.flatMap fun a => [f a, g a]).length = 2 * l.length := by
  induction l with
  | nil => simp
  | cons x xs ih => simp [ih]; omega

lemma flatMap_pairs_map {α β γ : Type} (l : List α) (f g : α → β) (φ : β → γ) :
    ((l.flatMap fun a => [f a, g a]).map φ) = l.flatMap fun a => [φ (f a), φ (g a)] := by
  induction l with
  | nil => simp
  | cons x xs ih => simp [ih]

lemma renderTurn_user (t : String) : renderTurn ⟨"user", t⟩ = "User: " ++ t := rfl

lemma renderTurn_assistant (t : String) : renderTurn ⟨"assistant", t⟩ = "Assistant: " ++ t := rfl

/-- C2: after N fully successful non-interleaved /gemini/voice requests for a
session starting from an absent history, the stored history is exactly the
chronological interleaving user, assistant, user, assistant, ... of the N
transcripts and N replies (so it has exactly 2N turns), and the prompt
rendered from it is the fixed system instruction followed by one line per
turn of the form "<Role>: <content>" with the role capitalized, joined by
newlines, plus the trailing "Assistant:" cue. -/
theorem session_history_spec (envs : List GeminiVoiceEnv)
    (hall : ∀ e ∈ envs, Successful e) :
    runSession envs [] =
      envs.flatMap (fun e => [⟨"user", sttTextOf e⟩, ⟨"assistant", replyOf e⟩])
    ∧ (runSession envs []).length = 2 * envs.length
    ∧ (runSession envs []).map renderTurn =
        envs.flatMap (fun e => ["User: " ++ sttTextOf e, "Assistant: " ++ replyOf e])
    ∧ fullPrompt (runSession envs []) =
        "You are a helpful assistant. Continue the conversation based on the history below.\n\n"
          ++ String.intercalate "\n"
              (envs.flatMap (fun e => ["User: " ++ sttTextOf e, "Assistant: " ++ replyOf e]))
          ++ "\nAssistant:" := by
  have h0 : runSession envs [] =
      envs.flatMap (fun e => [⟨"user", sttTextOf e⟩, ⟨"assistant", replyOf e⟩]) := by
    have := runSession_success envs [] hall
    simpa using this
  have hmap : (runSession envs []).map renderTurn =
      envs.flatMap (fun e => ["User: " ++ sttTextOf e, "Assistant: " ++ replyOf e]) := by
    rw [h0, flatMap_pairs_map]
    simp only [renderTurn_user, renderTurn_assistant]
  refine ⟨h0, ?_, hmap, ?_⟩
  · rw [h0, flatMap_pairs_length]
  · rw [fullPrompt, historyText, hmap]

/-- C2 witness: one fully successful request with transcript "hi" and reply
"there". -/
theorem session_history_spec_witness :
    runSession [okGeminiEnv] [] =
      [okGeminiEnv].flatMap (fun e => [⟨"user", sttTextOf e⟩, ⟨"assistant", replyOf e⟩])
    ∧ (runSession [okGeminiEnv] []).length = 2 * [okGeminiEnv].length
    ∧ (runSession [okGeminiEnv] []).map renderTurn =
        [okGeminiEnv].flatMap (fun e => ["User: " ++ sttTextOf e, "Assistant: " ++ replyOf e])
    ∧ fullPrompt (runSession [okGeminiEnv] []) =
        "You are a helpful assistant. Continue the conversation based on the history below.\n\n"
          ++ String.intercalate "\n"
              ([okGeminiEnv].flatMap
                (fun e => ["User: " ++ sttTextOf e, "Assistant: " ++ replyOf e]))
          ++ "\nAssistant:" := by
  refine session_history_spec [okGeminiEnv] ?_
  intro e he
  rw [List.mem_singleton] at he
  subst he
  refine ⟨rfl, rfl, rfl⟩

/-- C5 counterexample: a /tts/echo/ request whose transcription job completes
with the empty transcript is answered with a 504 timeout error instead of a
success response echoing the transcript — lines 203-204 treat the Python-falsy
empty string like the absent transcript of a timed-out loop. -/
theorem echo_bot_empty_transcript_counterexample :
    echoPollLoop emptyTranscriptEnv.polls 0 20 = some (.ok "")
    ∧ echo_bot emptyTranscriptEnv =
        ⟨504, [("error", "Transcription timed out."), ("audio_file", FALLBACK_AUDIO_URL)]⟩
    ∧ (echo_bot emptyTranscriptEnv).fields.lookup "transcript" = none := by
  refine ⟨rfl, rfl, rfl⟩

/-- C5 (amended): when the transcription job completes with transcript t and
the synthesis steps succeed, /echobot/voice returns a 200 body whose
transcript equals t exactly (for every t, including the empty string), and
/tts/echo/ does so whenever t is non-empty. -/
theorem transcript_passthrough
    (envA : EchoBotEnv) (envB : PipelineEnv) (t u : String)
    (hup : envA.uploadResp.status_code = 200 ∨ envA.uploadResp.status_code = 201)
    (hurl : envA.uploadUrl.isSome = true)
    (htr : envA.transcriptResp.status_code = 200 ∨ envA.transcriptResp.status_code = 201)
    (hid : envA.transcriptId.isSome = true)
    (hpoll : echoPollLoop envA.polls 0 20 = some (.ok t))
    (hne : t ≠ "")
    (hvoices : envA.murf.voicesResp.status_code = 200)
    (hvlist : ∃ v vs, envA.murf.voicesJson = some (v :: vs))
    (hgen : (envA.murf.genResp t).status_code = 200
      ∨ (envA.murf.genResp t).status_code = 201)
    (haud : (envA.murf.genAudioFile t).isSome = true)
    (hsttB : sttChain envB.stt = .ok u)
    (hmurfB : (generate_murf_audio_and_save envB.murf u).isOk = true) :
    echo_bot envA = ⟨200, [("audio_file", "/play-audio"), ("transcript", t)]⟩
    ∧ echobot_voice envB =
        (⟨200, [("transcript", u), ("audio_file", "/play-audio")]⟩, true) := by
  constructor
  · obtain ⟨url, hurl2⟩ := Option.isSome_iff_exists.mp hurl
    obtain ⟨tid, hid2⟩ := Option.isSome_iff_exists.mp hid
    obtain ⟨v, vs, hv⟩ := hvlist
    obtain ⟨au, hau⟩ := Option.isSome_iff_exists.mp haud
    unfold echo_bot
    rw [if_neg (by simp [hup]), hurl2]
    dsimp only
    rw [if_neg (by simp [htr]), hid2]
    dsimp only
    rw [hpoll]
    dsimp only
    rw [if_neg hne]
    unfold echoMurfPhase
    rw [if_neg (by simp [hvoices]), hv]
    dsimp only
    rw [if_pos hgen, hau]
  · obtain ⟨p, hp⟩ := exceptOk_elim hmurfB
    unfold echobot_voice
    rw [hsttB]
    dsimp only
    rw [hp]

/-- C5 witness: transcript "hello" through both endpoints. -/
theorem transcript_passthrough_witness :
    echo_bot helloEchoEnv = ⟨200, [("audio_file", "/play-audio"), ("transcript", "hello")]⟩
    ∧ echobot_voice ⟨okStt "hello", okMurf⟩ =
        (⟨200, [("transcript", "hello"), ("audio_file", "/play-audio")]⟩, true) :=
  transcript_passthrough helloEchoEnv ⟨okStt "hello", okMurf⟩ "hello" "hello"
    (.inl rfl) rfl (.inl rfl) rfl rfl (by decide) rfl ⟨some "en-US-1", [], rfl⟩
    (.inl rfl) rfl rfl rfl

/-- C7 counterexample: a /llm/query request with multipart/form-data content
type but no attached file carries no audio attachment, yet the handler does
not take the JSON path: it returns 400 "No audio file provided" and no
response field, contradicting the claimed two-way split. -/
theorem llm_query_multipart_no_file_counterexample :
    multipartNoFileEnv.hasFile = false
    ∧ llm_query multipartNoFileEnv =
        (⟨400, [("error", "No audio file provided"), ("audio_file", FALLBACK_AUDIO_URL)]⟩,
         false)
    ∧ (llm_query multipartNoFileEnv).1.fields.lookup "response" = none := by
  refine ⟨rfl, rfl, rfl⟩

/-- C7 (amended): /llm/query has three shapes.  With a file attached it runs
transcribe, generate, synthesize and returns transcript, llm_response and
audio_file (the artifact is written).  With no file but a multipart content
type it returns 400 without generating or synthesizing.  Otherwise it parses
the body as JSON, generates a reply from the text/prompt field directly,
performs no synthesis, writes no audio artifact, and returns only the
generated text under response. -/
theorem llm_query_dual_mode
    (envA envB envC : LlmQueryEnv) (t raw : String) (body : JsonBody) (resp : String)
    (hA1 : envA.hasFile = true) (hA2 : sttChain envA.stt = .ok t)
    (hA3 : envA.llm t = .ok raw)
    (hA4 : (generate_murf_audio_and_save envA.murf (pyStrip raw)).isOk = true)
    (hB1 : envB.hasFile = false) (hB2 : envB.multipartContentType = true)
    (hC1 : envC.hasFile = false) (hC2 : envC.multipartContentType = false)
    (hC3 : envC.jsonBody = some body)
    (hC4 : pyOr body.text (pyOr body.prompt "") ≠ "")
    (hC5 : envC.llm (pyOr body.text (pyOr body.prompt "")) = .ok resp) :
    llm_query envA =
      (⟨200, [("transcript", t), ("llm_response", pyStrip raw),
        ("audio_file", "/play-audio")]⟩, true)
    ∧ llm_query envB =
        (⟨400, [("error", "No audio file provided"), ("audio_file", FALLBACK_AUDIO_URL)]⟩,
         false)
    ∧ llm_query envC = (⟨200, [("response", resp)]⟩, false) := by
  refine ⟨?_, ?_, ?_⟩
  · obtain ⟨p, hp⟩ := exceptOk_elim hA4
    unfold llm_query
    rw [hA1]
    simp only [Bool.true_or, if_true]
    rw [if_neg (by simp), hA2]
    dsimp only
    rw [hA3]
    dsimp only
    rw [hp]
  · unfold llm_query
    rw [hB1, hB2]
    simp
  · unfold llm_query
    rw [hC1, hC2]
    simp only [Bool.or_false, Bool.false_or, if_false]
    rw [hC3]
    dsimp only
    rw [if_neg hC4, hC5]
    rfl

/-- C7 witness: the three shapes at concrete environments. -/
theorem llm_query_dual_mode_witness :
    llm_query audioLlmEnv =
      (⟨200, [("transcript", "hi"), ("llm_response", pyStrip "reply"),
        ("audio_file", "/play-audio")]⟩, true)
    ∧ llm_query multipartNoFileEnv =
        (⟨400, [("error", "No audio file provided"), ("audio_file", FALLBACK_AUDIO_URL)]⟩,
         false)
    ∧ llm_query jsonHelloEnv = (⟨200, [("response", "reply")]⟩, false) := by
  refine llm_query_dual_mode audioLlmEnv multipartNoFileEnv jsonHelloEnv
    "hi" "reply" ⟨some "hello", none⟩ "reply" rfl rfl rfl ?_ rfl rfl rfl rfl rfl ?_ rfl
  · rfl
  · show pyOr (some "hello") (pyOr none "") ≠ ""
    simp [pyOr]

/-- C1 counterexample: in the src/templates/main.py variant of /tts/echo/, a
failing upload step yields a 500 error whose body has an error field but no
audio_file key at all — the Fallback Audio Reference is absent. -/
theorem templates_error_without_fallback_counterexample :
    Templates.echo_bot templatesFailEnv =
      (⟨500, [("error", "Upload failed"), ("details", "boom")]⟩, true)
    ∧ (Templates.echo_bot templatesFailEnv).1.fields.lookup "audio_file" = none := by
  refine ⟨rfl, rfl⟩

/-- C1 (amended): whenever a pipeline step fails, the handler short-circuits:
any response other than a 200 success is an error response with an error
field, and the temporary uploaded-audio file is removed; in src/main.py
(/echobot/voice) the body additionally carries the Fallback Audio Reference
under audio_file, while the src/templates/main.py /tts/echo/ variant returns
500 or 504 with an error field but omits the audio_file key. -/
theorem pipeline_failure_error_response :
    (∀ env : PipelineEnv, (echobot_voice env).1.status_code ≠ 200 →
      (echobot_voice env).1.status_code = 500
      ∧ ((echobot_voice env).1.fields.lookup "error").isSome = true
      ∧ (echobot_voice env).1.fields.lookup "audio_file" = some FALLBACK_AUDIO_URL
      ∧ (echobot_voice env).2 = true)
    ∧ (∀ env : Templates.EchoEnv, (Templates.echo_bot env).1.status_code ≠ 200 →
        ((Templates.echo_bot env).1.status_code = 500
          ∨ (Templates.echo_bot env).1.status_code = 504)
        ∧ ((Templates.echo_bot env).1.fields.lookup "error").isSome = true
        ∧ (Templates.echo_bot env).2 = true) := by
  constructor
  · intro env h
    unfold echobot_voice at h ⊢
    cases hstt : sttChain env.stt with
    | error e => simp [hstt, List.lookup]
    | ok t =>
      cases hm : generate_murf_audio_and_save env.murf t with
      | error e => simp [hstt, hm, List.lookup]
      | ok p => rw [hstt] at h; dsimp only at h; rw [hm] at h; simp at h
  · intro env h
    unfold Templates.echo_bot at h ⊢
    by_cases h1 : env.uploadResp.status_code ≠ 200
    · simp [h1, List.lookup]
    · rw [if_neg h1] at h ⊢
      cases hu : env.uploadUrl with
      | none => simp [hu, List.lookup]
      | some u =>
        rw [hu] at h
        dsimp only at h ⊢
        by_cases h2 : env.transcriptResp.status_code ≠ 200
        · simp [h2, List.lookup]
        · rw [if_neg h2] at h ⊢
          cases hid : env.transcriptId with
          | none => simp [hid, List.lookup]
          | some tid =>
            rw [hid] at h
            dsimp only at h ⊢
            cases hp : echoPollLoop env.polls 0 20 with
            | none => simp [hp, List.lookup]
            | some r =>
              rw [hp] at h
              cases r with
              | error e => simp [List.lookup]
              | ok t =>
                dsimp only at h ⊢
                by_cases ht : t = ""
                · simp [ht, List.lookup]
                · rw [if_neg ht] at h ⊢
                  by_cases h3 : (env.murfGenResp t).status_code ≠ 200
                  · simp [h3, List.lookup]
                  · rw [if_neg h3] at h ⊢
                    cases ha : env.murfAudioFile t with
                    | none => simp [ha, List.lookup]
                    | some a => rw [ha] at h; simp at h

/-- C1 witness: a failing upload in /echobot/voice yields a 500 body with an
error field and the fallback audio reference, with the temp file removed. -/
theorem pipeline_failure_error_response_witness :
    (echobot_voice pipeFailEnv).1.status_code = 500
    ∧ ((echobot_voice pipeFailEnv).1.fields.lookup "error").isSome = true
    ∧ (echobot_voice pipeFailEnv).1.fields.lookup "audio_file" = some FALLBACK_AUDIO_URL
    ∧ (echobot_voice pipeFailEnv).2 = true :=
  pipeline_failure_error_response.1 pipeFailEnv (by decide)

end VoiceAgent









